import Mathlib

/-!
Verification of the Smart Agriculture Planner core (`smart_planner.py`,
`web_app.py`): soil normalization, crop selection, irrigation planning,
cost estimation and the recommendation orchestrators.

Numeric values are modelled as rationals (`ℚ`).  The process-wide
random-number source consumed by the planner (`random.choice`,
`random.uniform`) is threaded explicitly as an `Rng` value, so every
function is a pure function of its inputs and the randomness it draws.
Filesystem existence (`os.path.exists`) is passed as a boolean predicate.
-/

namespace SmartPlanner

/-- ASCII lower-casing of one character, as Python `str.lower` does on the
filenames and soil-type strings used by the planner. -/
def lowerChar (c : Char) : Char :=
  if 'A' ≤ c && c ≤ 'Z' then Char.ofNat (c.toNat + 32) else c

/-- Python `s.lower()`. -/
def pyLower (s : String) : String := ⟨s.data.map lowerChar⟩

/-- Python whitespace, as stripped by `str.strip()`. -/
def isSpaceChar (c : Char) : Bool :=
  c == ' ' || c == '\t' || c == '\n' || c == '\r' || c == '\x0b' || c == '\x0c'

/-- Python `s.strip()`: drop leading and trailing whitespace. -/
def pyStrip (s : String) : String :=
  ⟨((s.data.dropWhile isSpaceChar).reverse.dropWhile isSpaceChar).reverse⟩

/-- `os.path.basename` for POSIX paths: the component after the last slash. -/
def basename (path : String) : String :=
  ⟨(path.data.reverse.takeWhile (fun c => c != '/')).reverse⟩

/-- Auxiliary: `pat` is a prefix of the second list. -/
def isPrefixAt : List Char → List Char → Bool
  | [], _ => true
  | _ :: _, [] => false
  | a :: as, b :: bs => a == b && isPrefixAt as bs

/-- Auxiliary for substring search: `pat` occurs somewhere in the list. -/
def containsAux (pat : List Char) : List Char → Bool
  | [] => pat.isEmpty
  | b :: bs => isPrefixAt pat (b :: bs) || containsAux pat bs

/-- Python `pat in s` on strings: substring occurrence. -/
def strContains (s pat : String) : Bool := containsAux pat.data s.data

/-- The randomness a single planner call may consume.  `choiceIdx` drives
`random.choice` (reduced modulo the list length); `moistureDraw` and
`phDraw` stand for the already-rounded results of
`round(random.uniform(5, 35), 1)` and `round(random.uniform(6.0, 7.5), 1)`. -/
structure Rng where
  choiceIdx : Nat
  moistureDraw : ℚ
  phDraw : ℚ
deriving DecidableEq

/-- The soil-analysis dict.  The image path never sets `pH`, the manual
path always does, hence `pH : Option ℚ`. -/
structure SoilProfile where
  soil_type : String
  texture : String
  moisture_pct : ℚ
  pH : Option ℚ
deriving DecidableEq

/-- A value handed to Python `float(...)`: either something that converts
to the rational `q`, or a string that does not parse as a number. -/
inductive PyVal where
  | num (q : ℚ)
  | badStr
deriving DecidableEq

/-- Python `float(v)`: yields the numeric value or raises `ValueError`. -/
def pyFloat : PyVal → Except String ℚ
  | .num q => .ok q
  | .badStr => .error "ValueError: could not convert string to float"

/-- `random.choice(l)`: an arbitrary element of `l`, selected by the
randomness index reduced modulo the length. -/
def randChoice (k : Nat) (l : List String) : String :=
  l.getD (k % l.length) ""

/-- `analyze_soil_image_path` (smart_planner.py lines 11-29): infer soil
type from filename keywords, or randomize; moisture is a fresh draw and
`pH` is never set. -/
def analyze_soil_image_path (rng : Rng) (path : String) : SoilProfile :=
  let bn := pyLower (basename path)
  if strContains bn "clay" then
    { soil_type := "clay", texture := "fine", moisture_pct := rng.moistureDraw, pH := none }
  else if strContains bn "sand" then
    { soil_type := "sandy", texture := "coarse", moisture_pct := rng.moistureDraw, pH := none }
  else if strContains bn "loam" then
    { soil_type := "loam", texture := "balanced", moisture_pct := rng.moistureDraw, pH := none }
  else
    { soil_type := randChoice rng.choiceIdx ["loam", "sandy", "clay", "silty"],
      texture := "inferred", moisture_pct := rng.moistureDraw, pH := none }

/-- The `texture_map` dict of `analyze_soil_from_params`. -/
def texture_map : List (String × String) :=
  [("loam", "balanced"), ("sandy", "coarse"), ("clay", "fine"), ("silty", "fine")]

/-- Lines 35-37 of smart_planner.py: lower-case and strip the soil type
and coerce anything outside the four known values to "loam". -/
def normalizeSoilType (raw : String) : String :=
  let st0 := pyStrip (pyLower raw)
  if st0 ∈ ["loam", "sandy", "clay", "silty"] then st0 else "loam"

/-- Lines 40-42 of smart_planner.py: `texture_map.get(soil_type, "balanced")`. -/
def defaultTexture (st : String) : String :=
  ((texture_map.find? fun p => p.1 == st).map Prod.snd).getD "balanced"

/-- `analyze_soil_from_params` (smart_planner.py lines 32-59): normalize
the soil type, default the texture from the per-type map, and coerce
explicit moisture/pH with `float` (which may raise `ValueError`),
drawing random defaults when they are absent. -/
def analyze_soil_from_params (rng : Rng) (soil_type_arg : String)
    (texture : Option String) (moisture_pct pH : Option PyVal) :
    Except String SoilProfile :=
  let st := normalizeSoilType soil_type_arg
  let tex :=
    match texture with
    | some t => t
    | none => defaultTexture st
  match (match moisture_pct with
         | none => Except.ok rng.moistureDraw
         | some v => pyFloat v : Except String ℚ) with
  | .error e => .error e
  | .ok m =>
    match (match pH with
           | none => Except.ok rng.phDraw
           | some v => pyFloat v : Except String ℚ) with
    | .error e => .error e
    | .ok p =>
      .ok { soil_type := st, texture := tex, moisture_pct := m, pH := some p }

/-- One entry of the crop knowledge base. -/
structure CropRecord where
  crop : String
  water_l_per_day_per_acre : ℚ
  cost_per_acre_usd : ℚ
deriving DecidableEq

/-- The fixed crop knowledge base `_CROP_DB` (smart_planner.py lines 62-80),
as an association list in declaration order. -/
def _CROP_DB : List (String × List CropRecord) :=
  [("loam",
     [{ crop := "Millet", water_l_per_day_per_acre := 150, cost_per_acre_usd := 80 },
      { crop := "Sorghum", water_l_per_day_per_acre := 200, cost_per_acre_usd := 100 },
      { crop := "Maize", water_l_per_day_per_acre := 400, cost_per_acre_usd := 150 }]),
   ("sandy",
     [{ crop := "Groundnut", water_l_per_day_per_acre := 120, cost_per_acre_usd := 90 },
      { crop := "Sorghum", water_l_per_day_per_acre := 200, cost_per_acre_usd := 100 }]),
   ("clay",
     [{ crop := "Rice", water_l_per_day_per_acre := 1200, cost_per_acre_usd := 300 },
      { crop := "Sugarcane", water_l_per_day_per_acre := 900, cost_per_acre_usd := 250 }]),
   ("silty",
     [{ crop := "Wheat", water_l_per_day_per_acre := 220, cost_per_acre_usd := 110 },
      { crop := "Barley", water_l_per_day_per_acre := 180, cost_per_acre_usd := 95 }])]

/-- Python `_CROP_DB.get(soil_type, [])`. -/
def cropDBGet (t : String) : List CropRecord :=
  ((_CROP_DB.find? fun p => p.1 == t).map Prod.snd).getD []

/-- The sort key comparison used by `select_crops`: ascending
`water_l_per_day_per_acre`. -/
def waterLE (a b : CropRecord) : Bool :=
  decide (a.water_l_per_day_per_acre ≤ b.water_l_per_day_per_acre)

/-- `select_crops` (smart_planner.py lines 83-87): stable sort by water
usage ascending (Python `sorted` is a stable merge sort), then take the
first `top_n`. -/
def select_crops (soil_type_arg : String) (top_n : Nat) : List CropRecord :=
  let options := cropDBGet soil_type_arg
  let options_sorted := options.mergeSort waterLE
  options_sorted.take top_n

/-- The irrigation schedule dict. -/
structure IrrigationPlan where
  method : String
  recommended_daily_water_l : ℚ
  meets_budget : Bool
  notes : String
deriving DecidableEq

/-- The fixed advisory string of every irrigation plan. -/
def irrigation_notes : String :=
  "Drip irrigation recommended for low water usage crops. Adjust frequency by season."

/-- `irrigation_plan_for_crop` (smart_planner.py lines 90-100). -/
def irrigation_plan_for_crop (crop_info : CropRecord)
    (water_budget_l_per_day : Option ℚ) : IrrigationPlan :=
  let w := crop_info.water_l_per_day_per_acre
  let method := if w ≤ 250 then "drip" else if w ≤ 600 then "sprinkler" else "flood"
  let meets_budget :=
    match water_budget_l_per_day with
    | none => true
    | some b => decide (w ≤ b)
  { method := method, recommended_daily_water_l := w,
    meets_budget := meets_budget, notes := irrigation_notes }

/-- The cost dict. -/
structure CostEstimate where
  area_acres : ℚ
  estimated_total_cost_usd : ℚ
deriving DecidableEq

/-- `cost_estimate` (smart_planner.py lines 103-105). -/
def cost_estimate (crop_info : CropRecord) (area_acres_arg : ℚ) : CostEstimate :=
  { area_acres := area_acres_arg,
    estimated_total_cost_usd := crop_info.cost_per_acre_usd * area_acres_arg }

/-- One crop suggestion of the orchestrators. -/
structure Suggestion where
  crop : String
  soil_match : String
  irrigation : IrrigationPlan
  cost : CostEstimate
deriving DecidableEq

/-- The aggregated orchestrator result. -/
structure RecommendationResult where
  soil_analysis : SoilProfile
  area_acres : ℚ
  water_budget_l_per_day : Option ℚ
  suggestions : List Suggestion
deriving DecidableEq

/-- Python truthiness of an optional string (`None` and `""` are falsy). -/
def truthy : Option String → Bool
  | none => false
  | some s => !(s == "")

/-- `analyze_and_suggest` (smart_planner.py lines 108-121).  `fileExists`
models `os.path.exists`.  Note `image_path or "placeholder.jpg"`: the
placeholder is substituted only when `image_path` is falsy; a non-empty
path to a nonexistent file is still analyzed under its own name. -/
def analyze_and_suggest (fileExists : String → Bool) (rng : Rng)
    (image_path : Option String) (area_acres_arg : ℚ) (water_budget : Option ℚ) :
    RecommendationResult :=
  let soil :=
    if truthy image_path && fileExists (image_path.getD "") then
      analyze_soil_image_path rng (image_path.getD "")
    else
      analyze_soil_image_path rng
        (if truthy image_path then image_path.getD "" else "placeholder.jpg")
  let crops := select_crops soil.soil_type 5
  let suggestions := crops.map fun c =>
    ({ crop := c.crop, soil_match := soil.soil_type,
       irrigation := irrigation_plan_for_crop c water_budget,
       cost := cost_estimate c area_acres_arg } : Suggestion)
  { soil_analysis := soil, area_acres := area_acres_arg,
    water_budget_l_per_day := water_budget, suggestions := suggestions }

/-- The params-mode orchestrator: the `mode == 'params'` branch of
`/api/analyze` (web_app.py lines 57-100), which normalizes via
`analyze_soil_from_params` and then runs the same selection, irrigation
and cost pipeline with `top_n = 5`.  A `ValueError` raised by the
normalizer propagates. -/
def recommend_params (rng : Rng) (soil_type_arg : String) (texture : Option String)
    (moisture_pct pH : Option PyVal) (area : ℚ) (water_budget : Option ℚ) :
    Except String RecommendationResult :=
  match analyze_soil_from_params rng soil_type_arg texture moisture_pct pH with
  | .error e => .error e
  | .ok soil =>
    let crops := select_crops soil.soil_type 5
    let suggestions := crops.map fun c =>
      ({ crop := c.crop, soil_match := soil.soil_type,
         irrigation := irrigation_plan_for_crop c water_budget,
         cost := cost_estimate c area } : Suggestion)
    .ok { soil_analysis := soil, area_acres := area,
          water_budget_l_per_day := water_budget, suggestions := suggestions }

/-- The outcome of the `float` coercion of an optional explicit value with
default `d`: `none` encodes a raised `ValueError`. -/
def numOr (v : Option PyVal) (d : ℚ) : Option ℚ :=
  match v with
  | none => some d
  | some (.num q) => some q
  | some .badStr => none

/-- The texture actually stored by the manual path: the explicit value if
given, else the per-type default. -/
def texOf (tex : Option String) (st : String) : String :=
  match tex with
  | some t0 => t0
  | none => defaultTexture st

/-- The argument actually handed to `analyze_soil_image_path` by
`analyze_and_suggest` lines 109-112. -/
def imgPathArg (fileExists : String → Bool) (image_path : Option String) : String :=
  if truthy image_path && fileExists (image_path.getD "") then image_path.getD ""
  else if truthy image_path then image_path.getD "" else "placeholder.jpg"

/-! ### Helper lemmas shared by the claim theorems -/

lemma waterLE_trans : ∀ a b c : CropRecord, waterLE a b → waterLE b c → waterLE a c := by
  intro a b c hab hbc
  simp only [waterLE, decide_eq_true_eq] at *
  exact le_trans hab hbc

lemma waterLE_total : ∀ a b : CropRecord, waterLE a b || waterLE b a := by
  intro a b
  simp only [waterLE, Bool.or_eq_true, decide_eq_true_eq]
  exact le_total _ _

lemma randChoice_mem_four (k : Nat) :
    randChoice k ["loam", "sandy", "clay", "silty"] ∈ ["loam", "sandy", "clay", "silty"] := by
  have h : k % 4 = 0 ∨ k % 4 = 1 ∨ k % 4 = 2 ∨ k % 4 = 3 := by omega
  rcases h with h | h | h | h <;> simp [randChoice, h]

lemma analyze_image_soil_type_mem (rng : Rng) (path : String) :
    (analyze_soil_image_path rng path).soil_type ∈ ["loam", "sandy", "clay", "silty"] := by
  simp only [analyze_soil_image_path]
  split_ifs
  · simp
  · simp
  · simp
  · exact randChoice_mem_four _

lemma length_select_crops (t : String) (n : Nat) :
    (select_crops t n).length = min n (cropDBGet t).length := by
  simp [select_crops]

lemma mem_of_mem_select_crops {c : CropRecord} {t : String} {n : Nat}
    (h : c ∈ select_crops t n) : c ∈ cropDBGet t :=
  List.mem_mergeSort.1 ((List.take_sublist _ _).subset h)

lemma cropDBGet_of_not_mem {t : String} (h : t ∉ _CROP_DB.map Prod.fst) :
    cropDBGet t = [] := by
  have hf : _CROP_DB.find? (fun p => p.1 == t) = none := by
    rw [List.find?_eq_none]
    intro x hx
    simp only [beq_iff_eq]
    intro hxt
    exact h (List.mem_map.2 ⟨x, hx, hxt⟩)
  simp [cropDBGet, hf]

lemma normalizeSoilType_mem (raw : String) :
    normalizeSoilType raw ∈ ["loam", "sandy", "clay", "silty"] := by
  simp only [normalizeSoilType]
  split_ifs with h
  · exact h
  · simp

lemma numOr_isSome_of_ne {v : Option PyVal} {d : ℚ} (h : v ≠ some .badStr) :
    ∃ m, numOr v d = some m := by
  rcases v with _ | w
  · exact ⟨_, rfl⟩
  · rcases w with q | _
    · exact ⟨_, rfl⟩
    · exact absurd rfl h

lemma analyze_params_ok_of (rng : Rng) (st : String) (tex : Option String)
    (mo ph : Option PyVal) (m pp : ℚ)
    (hm : numOr mo rng.moistureDraw = some m) (hp : numOr ph rng.phDraw = some pp) :
    analyze_soil_from_params rng st tex mo ph =
      .ok { soil_type := normalizeSoilType st,
            texture := texOf tex (normalizeSoilType st),
            moisture_pct := m, pH := some pp } := by
  rcases mo with _ | v
  · rcases ph with _ | w
    · simp only [numOr, Option.some.injEq] at hm hp
      subst hm; subst hp; rfl
    · rcases w with q | _
      · simp only [numOr, Option.some.injEq] at hm hp
        subst hm; subst hp; rfl
      · simp [numOr] at hp
  · rcases v with q | _
    · rcases ph with _ | w
      · simp only [numOr, Option.some.injEq] at hm hp
        subst hm; subst hp; rfl
      · rcases w with q2 | _
        · simp only [numOr, Option.some.injEq] at hm hp
          subst hm; subst hp; rfl
        · simp [numOr] at hp
    · simp [numOr] at hm

lemma analyze_params_error_of (rng : Rng) (st : String) (tex : Option String)
    (mo ph : Option PyVal)
    (h : numOr mo rng.moistureDraw = none ∨ numOr ph rng.phDraw = none) :
    ∃ e, analyze_soil_from_params rng st tex mo ph = .error e := by
  rcases mo with _ | v
  · rcases ph with _ | w
    · simp [numOr] at h
    · rcases w with q | _
      · simp [numOr] at h
      · exact ⟨_, rfl⟩
  · rcases v with q | _
    · rcases ph with _ | w
      · simp [numOr] at h
      · rcases w with q2 | _
        · simp [numOr] at h
        · exact ⟨_, rfl⟩
    · exact ⟨_, rfl⟩

lemma analyze_params_ok_shape {rng : Rng} {st : String} {tex : Option String}
    {mo ph : Option PyVal} {p : SoilProfile}
    (h : analyze_soil_from_params rng st tex mo ph = .ok p) :
    ∃ m pp, numOr mo rng.moistureDraw = some m ∧ numOr ph rng.phDraw = some pp ∧
      p = { soil_type := normalizeSoilType st,
            texture := texOf tex (normalizeSoilType st),
            moisture_pct := m, pH := some pp } := by
  rcases hmo : numOr mo rng.moistureDraw with _ | m
  · obtain ⟨e, he⟩ := analyze_params_error_of rng st tex mo ph (Or.inl hmo)
    rw [he] at h; cases h
  · rcases hph : numOr ph rng.phDraw with _ | pp
    · obtain ⟨e, he⟩ := analyze_params_error_of rng st tex mo ph (Or.inr hph)
      rw [he] at h; cases h
    · rw [analyze_params_ok_of rng st tex mo ph m pp hmo hph] at h
      injection h with h2
      exact ⟨m, pp, rfl, rfl, h2.symm⟩

lemma soil_type_of_analyze_ok {rng : Rng} {st : String} {tex : Option String}
    {mo ph : Option PyVal} {p : SoilProfile}
    (h : analyze_soil_from_params rng st tex mo ph = .ok p) :
    p.soil_type = normalizeSoilType st := by
  obtain ⟨m, pp, -, -, rfl⟩ := analyze_params_ok_shape h
  rfl

/-! ### Claim theorems -/

/-- Claim C1: the irrigation planner assigns method "drip" when the crop's
water demand is at most 250, "sprinkler" when it is more than 250 and at
most 600, and "flood" when it is more than 600, regardless of the budget. -/
theorem irrigation_method_thresholds (c : CropRecord) (b : Option ℚ) :
    (c.water_l_per_day_per_acre ≤ 250 →
      (irrigation_plan_for_crop c b).method = "drip") ∧
    (250 < c.water_l_per_day_per_acre → c.water_l_per_day_per_acre ≤ 600 →
      (irrigation_plan_for_crop c b).method = "sprinkler") ∧
    (600 < c.water_l_per_day_per_acre →
      (irrigation_plan_for_crop c b).method = "flood") := by
  have hm : (irrigation_plan_for_crop c b).method =
      (if c.water_l_per_day_per_acre ≤ 250 then "drip"
       else if c.water_l_per_day_per_acre ≤ 600 then "sprinkler" else "flood") := rfl
  refine ⟨fun h1 => ?_, fun h1 h2 => ?_, fun h1 => ?_⟩ <;> rw [hm]
  · rw [if_pos h1]
  · rw [if_neg (by linarith), if_pos h2]
  · rw [if_neg (by linarith), if_neg (by linarith)]

/-- Witness for C1: demands 150 and the boundary 250 give "drip", 400 and
the boundary 600 give "sprinkler", 1200 gives "flood". -/
theorem irrigation_method_thresholds_witness :
    (irrigation_plan_for_crop
      { crop := "Millet", water_l_per_day_per_acre := 150, cost_per_acre_usd := 80 }
      none).method = "drip" ∧
    (irrigation_plan_for_crop
      { crop := "Edge", water_l_per_day_per_acre := 250, cost_per_acre_usd := 0 }
      none).method = "drip" ∧
    (irrigation_plan_for_crop
      { crop := "Maize", water_l_per_day_per_acre := 400, cost_per_acre_usd := 150 }
      none).method = "sprinkler" ∧
    (irrigation_plan_for_crop
      { crop := "Edge", water_l_per_day_per_acre := 600, cost_per_acre_usd := 0 }
      none).method = "sprinkler" ∧
    (irrigation_plan_for_crop
      { crop := "Rice", water_l_per_day_per_acre := 1200, cost_per_acre_usd := 300 }
      none).method = "flood" :=
  ⟨(irrigation_method_thresholds _ none).1 (by decide),
   (irrigation_method_thresholds _ none).1 (by decide),
   (irrigation_method_thresholds _ none).2.1 (by decide) (by decide),
   (irrigation_method_thresholds _ none).2.1 (by decide) (by decide),
   (irrigation_method_thresholds _ none).2.2 (by decide)⟩

/-- Claim C3: the plan's meets_budget flag is true when the budget is
absent, and with a budget present it is true exactly when the demand is
at most the budget (non-strict); demand 300 against budget 200 gives
false and against budget 300 gives true. -/
theorem meets_budget_iff (c : CropRecord) (q : ℚ) :
    (irrigation_plan_for_crop c none).meets_budget = true ∧
    ((irrigation_plan_for_crop c (some q)).meets_budget = true ↔
      c.water_l_per_day_per_acre ≤ q) ∧
    (irrigation_plan_for_crop
      { crop := "x", water_l_per_day_per_acre := 300, cost_per_acre_usd := 0 }
      (some 200)).meets_budget = false ∧
    (irrigation_plan_for_crop
      { crop := "x", water_l_per_day_per_acre := 300, cost_per_acre_usd := 0 }
      (some 300)).meets_budget = true := by
  refine ⟨rfl, ?_, by decide, by decide⟩
  simp [irrigation_plan_for_crop]

/-- Claim C5: the cost estimator echoes the area unchanged and its total
is exactly cost_per_acre times area; at cost 100, area 2 gives 200 and
area 1/2 gives 50. -/
theorem cost_estimate_linear (c : CropRecord) (a : ℚ) (_ha : 0 ≤ a) :
    (cost_estimate c a).area_acres = a ∧
    (cost_estimate c a).estimated_total_cost_usd = c.cost_per_acre_usd * a ∧
    (cost_estimate
      { crop := "x", water_l_per_day_per_acre := 0, cost_per_acre_usd := 100 }
      2).estimated_total_cost_usd = 200 ∧
    (cost_estimate
      { crop := "x", water_l_per_day_per_acre := 0, cost_per_acre_usd := 100 }
      (1 / 2)).estimated_total_cost_usd = 50 :=
  ⟨rfl, rfl, by norm_num [cost_estimate], by norm_num [cost_estimate]⟩

/-- Witness for C5 at the crop Millet (cost 80 per acre) and area 2. -/
theorem cost_estimate_linear_witness :
    (cost_estimate
      { crop := "Millet", water_l_per_day_per_acre := 150, cost_per_acre_usd := 80 }
      2).area_acres = 2 ∧
    (cost_estimate
      { crop := "Millet", water_l_per_day_per_acre := 150, cost_per_acre_usd := 80 }
      2).estimated_total_cost_usd = 80 * 2 :=
  ⟨(cost_estimate_linear _ 2 (by decide)).1, (cost_estimate_linear _ 2 (by decide)).2.1⟩

/-- Claim C2: select_crops returns a sequence that is non-decreasing in
water_l_per_day_per_acre, of length at most top_n and at most the number
of crops registered for the soil type (empty when the type is absent from
the table), and the sort is stable: any sublist of the registered
candidates already in key order, ties included in declaration order, is
still a sublist of the fully sorted candidate list. -/
theorem select_crops_spec (t : String) (n : Nat) :
    (select_crops t n).Pairwise
      (fun a b => a.water_l_per_day_per_acre ≤ b.water_l_per_day_per_acre) ∧
    (select_crops t n).length ≤ n ∧
    (select_crops t n).length ≤ (cropDBGet t).length ∧
    (t ∉ _CROP_DB.map Prod.fst → select_crops t n = []) ∧
    (∀ c : List CropRecord, List.Sublist c (cropDBGet t) →
      c.Pairwise (fun a b => a.water_l_per_day_per_acre ≤ b.water_l_per_day_per_acre) →
      List.Sublist c (select_crops t (cropDBGet t).length)) := by
  refine ⟨?_, ?_, ?_, ?_, ?_⟩
  · have hs : ((cropDBGet t).mergeSort waterLE).Pairwise (waterLE · ·) :=
      List.sorted_mergeSort waterLE_trans waterLE_total _
    have hs2 : ((cropDBGet t).mergeSort waterLE).Pairwise
        (fun a b => a.water_l_per_day_per_acre ≤ b.water_l_per_day_per_acre) :=
      hs.imp fun h => of_decide_eq_true h
    exact List.Pairwise.sublist (List.take_sublist _ _) hs2
  · rw [length_select_crops]; exact min_le_left _ _
  · rw [length_select_crops]; exact min_le_right _ _
  · intro h
    simp [select_crops, cropDBGet_of_not_mem h]
  · intro c hsub hpw
    have h1 : List.Sublist c ((cropDBGet t).mergeSort waterLE) :=
      List.sublist_mergeSort waterLE_trans waterLE_total
        (hpw.imp fun h => decide_eq_true h) hsub
    have h2 : select_crops t (cropDBGet t).length = (cropDBGet t).mergeSort waterLE := by
      simp only [select_crops]
      exact List.take_of_length_le (le_of_eq (List.length_mergeSort _))
    rw [h2]; exact h1

/-- Witness for C2: an unregistered soil type yields the empty list, and
for clay the sorted prefix keeps Sugarcane (water 900) as a sublist of the
fully sorted candidates. -/
theorem select_crops_spec_witness :
    select_crops "gravel" 4 = [] ∧
    List.Sublist
      [{ crop := "Sugarcane", water_l_per_day_per_acre := 900, cost_per_acre_usd := 250 }]
      (select_crops "clay" (cropDBGet "clay").length) :=
  ⟨(select_crops_spec "gravel" 4).2.2.2.1 (by decide),
   (select_crops_spec "clay" 0).2.2.2.2 _ (by decide) (by decide)⟩

/-- Claim C4: every SoilProfile produced by either normalizer entry mode
has soil_type among the four enumerated values, and a manual input whose
lower-cased trimmed soil_type is not one of them yields soil_type "loam"
silently (no error), provided its explicit moisture and pH values, if
any, are parseable. -/
theorem soil_type_enumerated (rng : Rng) (path st : String)
    (tex : Option String) (mo ph : Option PyVal) :
    (analyze_soil_image_path rng path).soil_type ∈ ["loam", "sandy", "clay", "silty"] ∧
    (∀ p, analyze_soil_from_params rng st tex mo ph = .ok p →
      p.soil_type ∈ ["loam", "sandy", "clay", "silty"]) ∧
    (pyStrip (pyLower st) ∉ ["loam", "sandy", "clay", "silty"] →
      mo ≠ some .badStr → ph ≠ some .badStr →
      ∃ p, analyze_soil_from_params rng st tex mo ph = .ok p ∧ p.soil_type = "loam") := by
  refine ⟨analyze_image_soil_type_mem rng path, ?_, ?_⟩
  · intro p hp
    obtain ⟨m, pp, -, -, rfl⟩ := analyze_params_ok_shape hp
    exact normalizeSoilType_mem st
  · intro hst hmo hph
    obtain ⟨m, hm⟩ := numOr_isSome_of_ne hmo
    obtain ⟨pp, hp2⟩ := numOr_isSome_of_ne hph
    refine ⟨_, analyze_params_ok_of rng st tex mo ph m pp hm hp2, ?_⟩
    show normalizeSoilType st = "loam"
    simp only [normalizeSoilType]
    rw [if_neg hst]

/-- Witness for C4: the unknown manual soil type "peat" is coerced to
"loam" without an error. -/
theorem soil_type_enumerated_witness :
    ∃ p, analyze_soil_from_params ⟨0, 0, 0⟩ "peat" none none none = .ok p ∧
      p.soil_type = "loam" :=
  (soil_type_enumerated ⟨0, 0, 0⟩ "x.jpg" "peat" none none none).2.2
    (by decide) (by decide) (by decide)

/-- Claim C8: an explicitly supplied moisture or pH that does not parse
as a number makes the manual normalizer fail with a propagated
ValueError-equivalent rather than being swallowed, and a parseable value
is coerced to the number and returned. -/
theorem params_value_error_propagates (rng : Rng) (st : String)
    (tex : Option String) (mo ph : Option PyVal) :
    (mo = some .badStr → ∃ e, analyze_soil_from_params rng st tex mo ph = .error e) ∧
    (ph = some .badStr → ∃ e, analyze_soil_from_params rng st tex mo ph = .error e) ∧
    (∀ q p, mo = some (.num q) → analyze_soil_from_params rng st tex mo ph = .ok p →
      p.moisture_pct = q) ∧
    (∀ q p, ph = some (.num q) → analyze_soil_from_params rng st tex mo ph = .ok p →
      p.pH = some q) := by
  refine ⟨fun h => ?_, fun h => ?_, fun q p hq hp => ?_, fun q p hq hp => ?_⟩
  · exact analyze_params_error_of rng st tex mo ph (Or.inl (by rw [h]; rfl))
  · exact analyze_params_error_of rng st tex mo ph (Or.inr (by rw [h]; rfl))
  · subst hq
    obtain ⟨m, pp, hm, -, rfl⟩ := analyze_params_ok_shape hp
    simp only [numOr, Option.some.injEq] at hm
    exact hm.symm
  · subst hq
    obtain ⟨m, pp, -, hm2, rfl⟩ := analyze_params_ok_shape hp
    simp only [numOr, Option.some.injEq] at hm2
    exact congrArg some hm2.symm

/-- Witness for C8: an unparseable explicit moisture raises, and an
explicit moisture of 12 is returned as 12. -/
theorem params_value_error_propagates_witness :
    (∃ e, analyze_soil_from_params ⟨0, 0, 0⟩ "loam" none (some .badStr) none = .error e) ∧
    (∀ p, analyze_soil_from_params ⟨0, 0, 0⟩ "loam" none (some (.num 12)) none = .ok p →
      p.moisture_pct = 12) :=
  ⟨(params_value_error_propagates ⟨0, 0, 0⟩ "loam" none (some .badStr) none).1 rfl,
   fun p hp =>
     (params_value_error_propagates ⟨0, 0, 0⟩ "loam" none (some (.num 12)) none).2.2.1
       12 p rfl hp⟩

/-- Claim C9: with texture unset, each valid soil type receives its fixed
default texture: loam balanced, sandy coarse, clay fine, silty fine. -/
theorem texture_defaults (rng : Rng) (mo ph : Option PyVal) :
    (∀ p, analyze_soil_from_params rng "loam" none mo ph = .ok p →
      p.texture = "balanced") ∧
    (∀ p, analyze_soil_from_params rng "sandy" none mo ph = .ok p →
      p.texture = "coarse") ∧
    (∀ p, analyze_soil_from_params rng "clay" none mo ph = .ok p →
      p.texture = "fine") ∧
    (∀ p, analyze_soil_from_params rng "silty" none mo ph = .ok p →
      p.texture = "fine") := by
  refine ⟨fun p hp => ?_, fun p hp => ?_, fun p hp => ?_, fun p hp => ?_⟩ <;>
  · obtain ⟨m, pp, -, -, rfl⟩ := analyze_params_ok_shape hp
    rfl

/-- Witness for C9: manual clay input with texture unset comes back with
texture "fine". -/
theorem texture_defaults_witness :
    ∃ p, analyze_soil_from_params ⟨0, 0, 0⟩ "clay" none none none = .ok p ∧
      p.texture = "fine" :=
  ⟨{ soil_type := "clay", texture := "fine", moisture_pct := 0, pH := some 0 },
   rfl, (texture_defaults ⟨0, 0, 0⟩ none none).2.2.1 _ rfl⟩

lemma recommend_params_ok_of {rng : Rng} {st : String} {tex : Option String}
    {mo ph : Option PyVal} {area : ℚ} {wb : Option ℚ} {soilp : SoilProfile}
    (h : analyze_soil_from_params rng st tex mo ph = .ok soilp) :
    recommend_params rng st tex mo ph area wb =
      .ok { soil_analysis := soilp, area_acres := area, water_budget_l_per_day := wb,
            suggestions := (select_crops soilp.soil_type 5).map fun c =>
              ({ crop := c.crop, soil_match := soilp.soil_type,
                 irrigation := irrigation_plan_for_crop c wb,
                 cost := cost_estimate c area } : Suggestion) } := by
  simp only [recommend_params, h]

lemma analyze_and_suggest_eq (fs : String → Bool) (rng : Rng)
    (ip : Option String) (area : ℚ) (wb : Option ℚ) :
    analyze_and_suggest fs rng ip area wb =
      { soil_analysis := analyze_soil_image_path rng (imgPathArg fs ip),
        area_acres := area, water_budget_l_per_day := wb,
        suggestions :=
          (select_crops (analyze_soil_image_path rng (imgPathArg fs ip)).soil_type 5).map
            fun c => ({ crop := c.crop,
                        soil_match := (analyze_soil_image_path rng (imgPathArg fs ip)).soil_type,
                        irrigation := irrigation_plan_for_crop c wb,
                        cost := cost_estimate c area } : Suggestion) } := by
  simp only [analyze_and_suggest, imgPathArg]
  split_ifs <;> rfl

/-- Claim C6: params-mode recommend with soil type "loam", area 1 and
water budget 250 normalizes via the manual-parameter path and yields at
least one suggestion, each with cost.area_acres = 1 and a positive
recommended daily water volume (whenever any explicit moisture and pH
inputs parse, so that the normalizer succeeds). -/
theorem recommend_params_loam (rng : Rng) (tex : Option String) (mo ph : Option PyVal)
    (hmo : mo ≠ some .badStr) (hph : ph ≠ some .badStr) :
    ∃ r, recommend_params rng "loam" tex mo ph 1 (some 250) = .ok r ∧
      1 ≤ r.suggestions.length ∧
      ∀ s ∈ r.suggestions, s.cost.area_acres = 1 ∧
        0 < s.irrigation.recommended_daily_water_l := by
  obtain ⟨m, hm⟩ := numOr_isSome_of_ne hmo
  obtain ⟨pp, hp2⟩ := numOr_isSome_of_ne hph
  have hsoil := analyze_params_ok_of rng "loam" tex mo ph m pp hm hp2
  have hst := soil_type_of_analyze_ok hsoil
  rw [show normalizeSoilType "loam" = "loam" from rfl] at hst
  refine ⟨_, recommend_params_ok_of hsoil, ?_, ?_⟩
  · simp only [hst]
    rw [List.length_map, length_select_crops]
    decide
  · simp only [hst]
    intro s hs
    obtain ⟨c, hc, rfl⟩ := List.mem_map.1 hs
    refine ⟨rfl, ?_⟩
    have hc2 : c ∈ cropDBGet "loam" := mem_of_mem_select_crops hc
    rw [show cropDBGet "loam" =
      [{ crop := "Millet", water_l_per_day_per_acre := 150, cost_per_acre_usd := 80 },
       { crop := "Sorghum", water_l_per_day_per_acre := 200, cost_per_acre_usd := 100 },
       { crop := "Maize", water_l_per_day_per_acre := 400, cost_per_acre_usd := 150 }]
      from rfl] at hc2
    simp only [List.mem_cons, List.not_mem_nil, or_false] at hc2
    rcases hc2 with rfl | rfl | rfl <;> decide

/-- Witness for C6 with all optional inputs absent. -/
theorem recommend_params_loam_witness :
    ∃ r, recommend_params ⟨0, 0, 0⟩ "loam" none none none 1 (some 250) = .ok r ∧
      1 ≤ r.suggestions.length ∧
      ∀ s ∈ r.suggestions, s.cost.area_acres = 1 ∧
        0 < s.irrigation.recommended_daily_water_l :=
  recommend_params_loam ⟨0, 0, 0⟩ none none none (by decide) (by decide)

/-- Claim C7: when the lower-cased base filename contains "clay", the
image-mode analysis returns soil_type "clay" and texture "fine", and
these two fields are identical across any two randomness sources. -/
theorem image_clay_deterministic (rng rng2 : Rng) (path : String)
    (h : strContains (pyLower (basename path)) "clay" = true) :
    (analyze_soil_image_path rng path).soil_type = "clay" ∧
    (analyze_soil_image_path rng path).texture = "fine" ∧
    (analyze_soil_image_path rng path).soil_type =
      (analyze_soil_image_path rng2 path).soil_type ∧
    (analyze_soil_image_path rng path).texture =
      (analyze_soil_image_path rng2 path).texture := by
  simp [analyze_soil_image_path, h]

/-- Witness for C7 at "soil_clay.jpg" and two different randomness
sources. -/
theorem image_clay_deterministic_witness :
    (analyze_soil_image_path ⟨0, 10, 6⟩ "soil_clay.jpg").soil_type = "clay" ∧
    (analyze_soil_image_path ⟨0, 10, 6⟩ "soil_clay.jpg").texture = "fine" ∧
    (analyze_soil_image_path ⟨0, 10, 6⟩ "soil_clay.jpg").soil_type =
      (analyze_soil_image_path ⟨3, 20, 7⟩ "soil_clay.jpg").soil_type ∧
    (analyze_soil_image_path ⟨0, 10, 6⟩ "soil_clay.jpg").texture =
      (analyze_soil_image_path ⟨3, 20, 7⟩ "soil_clay.jpg").texture :=
  image_clay_deterministic ⟨0, 10, 6⟩ ⟨3, 20, 7⟩ "soil_clay.jpg" (by decide)

/-- Counterexample to claim C10 as stated: with no file existing, the
non-empty image path "clay.jpg" is NOT replaced by "placeholder.jpg"
(Python `image_path or "placeholder.jpg"` keeps any truthy path); its own
filename is analyzed, so the texture is "fine", not "inferred". -/
theorem analyze_and_suggest_placeholder_counterexample :
    (analyze_and_suggest (fun _ => false) ⟨0, 0, 0⟩ (some "clay.jpg") 1
      none).soil_analysis.texture = "fine" ∧
    (analyze_and_suggest (fun _ => false) ⟨0, 0, 0⟩ (some "clay.jpg") 1
      none).soil_analysis.texture ≠ "inferred" :=
  ⟨rfl, by decide⟩

/-- Claim C10 (amended): analyze_and_suggest always returns a complete
result whose soil type is one of the four enumerated values and whose
suggestion list has length 2 or 3 (never empty, since each soil type has
at least two crops and top_n is 5); when image_path is None the
placeholder name "placeholder.jpg" is analyzed, which matches no keyword,
so the texture is "inferred"; a non-empty path to a nonexistent file is
not replaced — it is analyzed under its own filename. -/
theorem analyze_and_suggest_total (fs : String → Bool) (rng : Rng)
    (ip : Option String) (area : ℚ) (wb : Option ℚ) :
    ((analyze_and_suggest fs rng ip area wb).suggestions.length = 2 ∨
      (analyze_and_suggest fs rng ip area wb).suggestions.length = 3) ∧
    (analyze_and_suggest fs rng ip area wb).soil_analysis.soil_type ∈
      ["loam", "sandy", "clay", "silty"] ∧
    (ip = none →
      (analyze_and_suggest fs rng ip area wb).soil_analysis =
        analyze_soil_image_path rng "placeholder.jpg" ∧
      (analyze_and_suggest fs rng ip area wb).soil_analysis.texture = "inferred") ∧
    (∀ s, ip = some s → s ≠ "" → fs s = false →
      (analyze_and_suggest fs rng ip area wb).soil_analysis =
        analyze_soil_image_path rng s) := by
  have hph1 : strContains (pyLower (basename "placeholder.jpg")) "clay" = false := by decide
  have hph2 : strContains (pyLower (basename "placeholder.jpg")) "sand" = false := by decide
  have hph3 : strContains (pyLower (basename "placeholder.jpg")) "loam" = false := by decide
  refine ⟨?_, ?_, ?_, ?_⟩
  · rw [analyze_and_suggest_eq]
    simp only [List.length_map, length_select_crops]
    have hmem := analyze_image_soil_type_mem rng (imgPathArg fs ip)
    simp only [List.mem_cons, List.not_mem_nil, or_false] at hmem
    rcases hmem with h | h | h | h <;> rw [h] <;> decide
  · rw [analyze_and_suggest_eq]
    exact analyze_image_soil_type_mem rng (imgPathArg fs ip)
  · rintro rfl
    rw [analyze_and_suggest_eq]
    refine ⟨rfl, ?_⟩
    show (analyze_soil_image_path rng "placeholder.jpg").texture = "inferred"
    simp [analyze_soil_image_path, hph1, hph2, hph3]
  · rintro s rfl hne hfs
    rw [analyze_and_suggest_eq]
    show analyze_soil_image_path rng (imgPathArg fs (some s)) = analyze_soil_image_path rng s
    have ht : truthy (some s) = true := by simp [truthy, hne]
    simp [imgPathArg, ht, hfs]

/-- Witness for C10 (amended): with no files on disk, an absent image
path yields an "inferred" texture, and the path "field_sand.png" is
analyzed under its own name. -/
theorem analyze_and_suggest_total_witness :
    ((analyze_and_suggest (fun _ => false) ⟨1, 9, 7⟩ none 1 none).soil_analysis =
      analyze_soil_image_path ⟨1, 9, 7⟩ "placeholder.jpg" ∧
     (analyze_and_suggest (fun _ => false) ⟨1, 9, 7⟩ none 1 none).soil_analysis.texture =
      "inferred") ∧
    (analyze_and_suggest (fun _ => false) ⟨1, 9, 7⟩ (some "field_sand.png") 1
      none).soil_analysis = analyze_soil_image_path ⟨1, 9, 7⟩ "field_sand.png" :=
  ⟨(analyze_and_suggest_total (fun _ => false) ⟨1, 9, 7⟩ none 1 none).2.2.1 rfl,
   (analyze_and_suggest_total (fun _ => false) ⟨1, 9, 7⟩ (some "field_sand.png") 1
      none).2.2.2 "field_sand.png" rfl (by decide) rfl⟩

end SmartPlanner
